import Mathlib

/-!
Verification of the ParamEditPlus command engine.

This development gives a shallow embedding of the core logic of
`ParamEditPlusCommand.py`: the command parser `_parse_parameter_command`,
the mutator `_assign_parameter_value`, the handlers
`_handle_parameter_modification` and `_handle_parameter_deletion`, and the
dispatcher `process_command_input`, together with a model of the host
parameter store (the external collaborator of spec section 6: lookup by
name, add, delete, in-place expression assignment).

Modelling conventions:
- Python strings are Lean `String` values; character classification
  (`str.isdigit`, `str.isalpha`, whitespace stripping) is modelled over the
  ASCII ranges the add-in actually uses.
- `float(...)` applied to the extracted numeric part (an ASCII string over
  digits, dot and minus) is modelled exactly as a rational number; every
  value the claims exercise is exactly representable as a float.
- Every `raise ValueError(...)` site of the parser and mutator becomes a
  distinct constructor of an error inductive; Python exceptions that the
  code catches become `Except` results that the handler definitions consume,
  so the handlers are total functions returning the new store state plus the
  list of message boxes shown to the user.
- Host parameters get a numeric object identity `pid` so that an in-place
  update (same `pid` kept) is distinguishable from delete-and-recreate
  (old `pid` removed, fresh `pid` appended).
-/

deriving instance DecidableEq for Except

/-- Model of Python `str.isdigit` on the ASCII digits, as used by line 198
of the source to extract the numeric part of the value substring. -/
def pyIsDigit (c : Char) : Bool := decide (48 ≤ c.toNat ∧ c.toNat ≤ 57)

/-- Model of Python `str.isalpha` on the ASCII letters, as used by line 199
of the source to extract the unit part of the value substring. -/
def pyIsAlpha (c : Char) : Bool :=
  decide ((65 ≤ c.toNat ∧ c.toNat ≤ 90) ∨ (97 ≤ c.toNat ∧ c.toNat ≤ 122))

/-- The ASCII whitespace characters removed by Python `str.strip()`. -/
def pyWhitespace : List Char := [' ', '\t', '\n', '\r', Char.ofNat 11, Char.ofNat 12]

/-- Model of Python `str.strip()`: drop whitespace from both ends. -/
def pyStrip (cs : List Char) : List Char :=
  ((cs.dropWhile (fun c => c ∈ pyWhitespace)).reverse.dropWhile
    (fun c => c ∈ pyWhitespace)).reverse

/-- Leftmost index of the substring `sep` in `s`, or `none`. This is Python
`str.find` returning an index rather than `-1`. -/
def findSubIdx (sep : List Char) : List Char → Option Nat
  | [] => if sep.isPrefixOf [] then some 0 else none
  | c :: cs =>
    if sep.isPrefixOf (c :: cs) then some 0
    else (findSubIdx sep cs).map (· + 1)

/-- Model of Python `str.find`: leftmost index of `sub` in `s`, or `-1`. -/
def pyFind (sub : String) (s : String) : Int :=
  match findSubIdx sub.data s.data with
  | none => -1
  | some i => (i : Int)

/-- The characters after the first occurrence of `sep`, when `sep` occurs. -/
def afterFirst (sep s : List Char) : Option (List Char) :=
  match findSubIdx sep s with
  | none => none
  | some i => some (s.drop (i + sep.length))

/-- The characters before the first occurrence of `sep` (all of `s` when
`sep` does not occur). -/
def upToFirst (sep s : List Char) : List Char :=
  match findSubIdx sep s with
  | none => s
  | some i => s.take i

/-- Model of Python `s.split(sep)[1]`: `none` when `sep` does not occur in
`s` (the `IndexError` case); otherwise the text strictly between the first
occurrence of `sep` and the following occurrence (or the end of `s`). -/
def pySplitIdx1 (sep s : List Char) : Option (List Char) :=
  (afterFirst sep s).map (upToFirst sep)

/-- Digit characters read as a natural number, most significant first. -/
def digitsToNat (cs : List Char) : Nat :=
  cs.foldl (fun acc c => acc * 10 + (c.toNat - 48)) 0

/-- Model of Python `float(...)` on the extracted numeric part, which by
construction contains only ASCII digits, dot and minus. The result is the
exact rational value: `none` models the `ValueError` raised by `float` on a
malformed literal (no digit, a minus sign after the start, or two dots). -/
def pyFloatOfNumeric (cs : List Char) : Option ℚ :=
  let neg : Bool := cs.head? = some '-'
  let body := if cs.head? = some '-' then cs.tail else cs
  if body.any (fun c => c = '-') then none
  else if body.any (fun c => ¬ (pyIsDigit c = true ∨ c = '.')) then none
  else if ¬ body.any (fun c => pyIsDigit c) then none
  else
    let ip := body.takeWhile (fun c => c ≠ '.')
    let fp := ((body.dropWhile (fun c => c ≠ '.')).drop 1)
    if fp.any (fun c => c = '.') then none
    else
      let mant : Int := (digitsToNat ip * 10 ^ fp.length + digitsToNat fp : Nat)
      some (Rat.divInt (if neg then -mant else mant) ((10 : Int) ^ fp.length))

/-- The unit taxonomy FUSION_UNITS of the source (lines 46 to 80): category
name paired with the set of valid unit symbols, as a list. -/
def FUSION_UNITS : List (String × List String) :=
  [ ("LENGTH", ["mm", "cm", "m", "hm", "micron", "in", "ft", "yd", "mi", "nauticalMile", "mil"]),
    ("ANGLE", ["rad", "deg", "grad"]),
    ("CURRENCY", ["dol"]),
    ("CURRENT", ["A"]),
    ("LUMINOSITY", ["cd", "EV"]),
    ("MASS", ["g", "kg", "slug", "lbmass", "ouncemass", "tonmass"]),
    ("PIECES", ["pcs"]),
    ("SUBSTANCE", ["mole"]),
    ("TEMPERATURE", ["K", "C", "F", "R"]),
    ("TIME", ["s", "min", "hr"]),
    ("SOLID_ANGLE", ["sr"]),
    ("SPEED", ["mps", "fps", "mph", "knots"]),
    ("AREA", ["acre", "circular_mil"]),
    ("VOLUME", ["l", "gal", "qt", "pt", "cup", "fl_oz"]),
    ("PRESSURE", ["mPa", "Pa", "MPa", "psi", "psf", "ksi", "bar", "atm", "inH2O", "ftH2O", "mH2O", "mmHg", "inHg"]),
    ("FORCE", ["N", "dyne", "lbforce", "ounceforce", "tonforce"]),
    ("POWER", ["W", "hp"]),
    ("ENERGY", ["J", "erg", "calorie", "Btu"]),
    ("ANGULAR_VELOCITY", ["rpm"]),
    ("LUMINOUS_FLUX", ["lm"]),
    ("ILLUMINANCE", ["lx"]),
    ("ELECTROMOTIVE_FORCE", ["V"]),
    ("RESISTANCE", ["ohm"]),
    ("CHARGE", ["columb"]),
    ("CAPACITANCE", ["farad"]),
    ("CONDUCTANCE", ["S", "mho"]),
    ("MAGNETIC_FLUX", ["Wb", "maxwell"]),
    ("MAGNETIC_FIELD", ["T", "gamma", "gauss"]),
    ("INDUCTANCE", ["H"]),
    ("MAGNETIZING_FIELD", ["oersted"]),
    ("FREQUENCY", ["Hz"]),
    ("VISCOSITY", ["poise"]),
    ("FLOW_RATE", ["CCS", "CIS", "CFM", "CMH", "GPH", "LPH"]) ]

/-- The flattened set ALL_VALID_UNITS of the source (line 83). -/
def ALL_VALID_UNITS : List String :=
  FUSION_UNITS.foldr (fun p acc => p.2 ++ acc) []

/-- The ParameterData dataclass of the source (lines 85 to 91). -/
structure ParameterData where
  name : String
  value : ℚ
  unit_type : String
  comment : String
deriving DecidableEq

/-- The stripped text before the first `=` of the command (the local
`param_name` of `_parse_parameter_command`, lines 188 and 189). -/
def namePartOf (s : String) : String :=
  ⟨pyStrip (s.data.takeWhile (fun c => c ≠ '='))⟩

/-- The stripped text after the first `=` of the command (the local
`param_value` of `_parse_parameter_command`, lines 188 and 190). -/
def valuePartOf (s : String) : String :=
  ⟨pyStrip ((s.data.dropWhile (fun c => c ≠ '=')).tail)⟩

/-- The digit, dot and minus characters of the value substring after space
removal (the local `numeric_part`, lines 197 and 198). -/
def numericPartOf (s : String) : List Char :=
  ((valuePartOf s).data.filter (fun c => c ≠ ' ')).filter
    (fun c => pyIsDigit c || c == '.' || c == '-')

/-- The alphabetic characters of the value substring after space removal
(the local `unit_part`, lines 197 and 199). -/
def unitPartOf (s : String) : String :=
  ⟨((valuePartOf s).data.filter (fun c => c ≠ ' ')).filter (fun c => pyIsAlpha c)⟩

/-- The distinct `raise ValueError` sites of `_parse_parameter_command`,
one constructor per site (lines 185, 194, 204, 210 and 219). -/
inductive ParseErr where
  | noEquals
  | emptyNameOrValue
  | noNumericValue
  | invalidNumeric (numeric : String)
  | invalidUnit (unit : String)
deriving DecidableEq

/-- Modelled from the spec: the four error kinds of section 7 of the spec
(FormatError, UnknownUnitError, InvalidConversionError, NotFoundError).
The code itself raises the single Python type ValueError everywhere; the
kinds exist in the code only as distinct raise sites and messages. -/
inductive SpecErrorKind where
  | formatError
  | unknownUnitError
  | invalidConversionError
  | notFoundError
deriving DecidableEq

/-- Modelled from the spec: the section 7 kind of each parser raise site.
The unit-membership raise site (message Invalid unit type, line 219) is the
unit-not-in-taxonomy error; the other four sites report a malformed command
string. -/
def specErrorKind : ParseErr → SpecErrorKind
  | .noEquals => .formatError
  | .emptyNameOrValue => .formatError
  | .noNumericValue => .formatError
  | .invalidNumeric _ => .formatError
  | .invalidUnit _ => .unknownUnitError

/-- Embedding of `_parse_parameter_command` (source lines 169 to 227):
check for `=`, split once on it, strip both parts, reject empty parts,
filter the value into numeric and alphabetic characters, convert the
numeric part with `float`, and check a non-empty unit part against the
flattened taxonomy. -/
def parse_parameter_command (command_value : String) : Except ParseErr ParameterData :=
  if command_value.data.contains '=' = false then .error .noEquals
  else if namePartOf command_value = "" ∨ valuePartOf command_value = "" then
    .error .emptyNameOrValue
  else if numericPartOf command_value = [] then .error .noNumericValue
  else
    match pyFloatOfNumeric (numericPartOf command_value) with
    | none => .error (.invalidNumeric ⟨numericPartOf command_value⟩)
    | some v =>
      if unitPartOf command_value = "" then
        .ok ⟨namePartOf command_value, v, "", ""⟩
      else if unitPartOf command_value ∉ ALL_VALID_UNITS then
        .error (.invalidUnit (unitPartOf command_value))
      else
        .ok ⟨namePartOf command_value, v, unitPartOf command_value, ""⟩

/-- True when the parse result is an error (the call raised ValueError). -/
def isErr {ε α : Type} (r : Except ε α) : Bool :=
  match r with
  | .error _ => true
  | .ok _ => false

/-- The section 7 kind of a parse outcome: `none` on success. -/
def parseKind (r : Except ParseErr ParameterData) : Option SpecErrorKind :=
  match r with
  | .error e => some (specErrorKind e)
  | .ok _ => none

/-- The malformed-command conditions of the claim, stated over the same
extracted parts the code computes: no `=`, empty stripped name, empty
stripped value, missing numeric part, or numeric part rejected by float. -/
def formatFailCond (s : String) : Prop :=
  s.data.contains '=' = false ∨ namePartOf s = "" ∨ valuePartOf s = "" ∨
    numericPartOf s = [] ∨ pyFloatOfNumeric (numericPartOf s) = none

instance (s : String) : Decidable (formatFailCond s) := by
  unfold formatFailCond
  infer_instance

/-- The unit-not-in-taxonomy condition: the command is otherwise well
formed but its non-empty unit part is outside the flattened set. -/
def unknownUnitCond (s : String) : Prop :=
  ¬ formatFailCond s ∧ unitPartOf s ≠ "" ∧ unitPartOf s ∉ ALL_VALID_UNITS

instance (s : String) : Decidable (unknownUnitCond s) := by
  unfold unknownUnitCond
  infer_instance

/-- The expression string handed to the host: `withUnit v u` stands for the
Python f-string of the value, a space and the unit (used by parameter
creation, line 257, and by the mutator when a unit is present, line 347);
`valueOnly v` stands for `str(value)` alone (mutator, line 345, when the
record is unitless). The numeric text of the float is kept abstract as its
exact rational value. -/
inductive PExpr where
  | withUnit (v : ℚ) (u : String)
  | valueOnly (v : ℚ)
deriving DecidableEq

/-- Model of a host user parameter: `pid` is the object identity (so that
delete-and-recreate is distinguishable from an in-place update), with the
name, unit string and current expression the host tracks. -/
structure UserParameter where
  pid : Nat
  name : String
  unit : String
  expression : PExpr
deriving DecidableEq

/-- Model of the host design state: the user parameter store in insertion
order plus the next fresh object identity. -/
structure DesignState where
  params : List UserParameter
  nextId : Nat
deriving DecidableEq

/-- Model of `design.userParameters.itemByName`: the first parameter with
the given name, or `none`. -/
def itemByName (st : DesignState) (nm : String) : Option UserParameter :=
  st.params.find? (fun p => p.name = nm)

/-- Model of `design.userParameters.add`: append a new parameter with a
fresh object identity. -/
def addParameter (st : DesignState) (nm : String) (unit : String) (e : PExpr) :
    DesignState :=
  { st with params := st.params ++ [⟨st.nextId, nm, unit, e⟩], nextId := st.nextId + 1 }

/-- Model of `deleteMe`: remove the parameter with the given identity. -/
def deleteParameter (st : DesignState) (pid : Nat) : DesignState :=
  { st with params := st.params.filter (fun q => q.pid ≠ pid) }

/-- The raise site of `_assign_parameter_value` reachable in the model: the
unit-to-unitless rejection of lines 341 and 342. The inner wrapper of lines
366 to 372 only repackages host API failures, and the modelled host store
operations are total. -/
inductive AssignErr where
  | invalidConversion (fromUnit : String)
deriving DecidableEq

/-- The expression the mutator builds on lines 345 to 347: the value alone
when the record is unitless, value space unit otherwise. -/
def mkAssignExpr (d : ParameterData) : PExpr :=
  if d.unit_type ≠ "" then .withUnit d.value d.unit_type else .valueOnly d.value

/-- Embedding of `_assign_parameter_value` (source lines 319 to 376):
reject unit-to-unitless conversions; delete and recreate when a unitless
parameter gains a unit; otherwise assign the expression in place. -/
def assign_parameter_value (st : DesignState) (user_parameter : UserParameter)
    (parameter_data : ParameterData) : Except AssignErr DesignState :=
  if user_parameter.unit ≠ "" ∧ parameter_data.unit_type = "" then
    .error (.invalidConversion user_parameter.unit)
  else if user_parameter.unit = "" ∧ parameter_data.unit_type ≠ "" then
    .ok (addParameter (deleteParameter st user_parameter.pid)
      user_parameter.name parameter_data.unit_type (mkAssignExpr parameter_data))
  else
    .ok { st with params := st.params.map (fun q =>
      if q.pid = user_parameter.pid then
        { q with expression := mkAssignExpr parameter_data }
      else q) }

/-- The errors a modification run can catch: a parser ValueError or a
mutator ValueError. -/
inductive ModError where
  | parseFail (e : ParseErr)
  | assignFail (e : AssignErr)
deriving DecidableEq

/-- The message boxes the handlers can show, one constructor per
`messageBox` call site reachable in the model, carrying what the message
text carries. -/
inductive UserMessage where
  | paramValidationError (input : String) (e : ModError)
  | parameterNotFound (name : String)
  | unableToDelete (input : String)
  | unableToEvaluate (input : String)
deriving DecidableEq

/-- Embedding of `_handle_parameter_modification` (source lines 232 to
278): parse the command; update an existing parameter through the mutator
or create a new one; every caught ValueError becomes the parameter
validation message box and leaves the store unchanged. The creation guard
of line 265 cannot fire because the modelled add is total. -/
def handle_parameter_modification (st : DesignState) (command_value : String) :
    DesignState × List UserMessage :=
  match parse_parameter_command command_value with
  | .error e => (st, [.paramValidationError command_value (.parseFail e)])
  | .ok d =>
    match itemByName st d.name with
    | some p =>
      match assign_parameter_value st p d with
      | .error e => (st, [.paramValidationError command_value (.assignFail e)])
      | .ok st1 => (st1, [])
    | none =>
      (addParameter st d.name d.unit_type (.withUnit d.value d.unit_type), [])

/-- The parameter name `_handle_parameter_deletion` extracts on line 303:
the stripped text of `command_value.split(del )[1]`, or `none` when the
indexing raises (the separator does not occur). -/
def delParamName (s : String) : Option String :=
  (pySplitIdx1 (("del ").data) s.data).map (fun cs => ⟨pyStrip cs⟩)

/-- Embedding of `_handle_parameter_deletion` (source lines 283 to 312):
extract the name, delete the parameter when found, otherwise show the
parameter-not-found message box; an extraction failure is caught by the
generic handler and shows the unable-to-delete message box. -/
def handle_parameter_deletion (st : DesignState) (command_value : String) :
    DesignState × List UserMessage :=
  match delParamName command_value with
  | none => (st, [.unableToDelete command_value])
  | some nm =>
    match itemByName st nm with
    | some p => (deleteParameter st p.pid, [])
    | none => (st, [.parameterNotFound nm])

/-- Embedding of `process_command_input` (source lines 495 to 536): an
empty command is a no-op; a command whose first `=` sits at index at least
2 goes to the modification handler; a command starting with the deletion
keyword goes to the deletion handler; anything else shows the
unable-to-evaluate message box. -/
def process_command_input (st : DesignState) (command_value : String) :
    DesignState × List UserMessage :=
  if command_value = "" then (st, [])
  else if pyFind ("=") command_value > 1 then
    handle_parameter_modification st command_value
  else if pyFind ("del ") command_value = 0 then
    handle_parameter_deletion st command_value
  else (st, [.unableToEvaluate command_value])

/-- True when a dispatcher run hits an internal error: a parser failure, a
mutator failure, a failed deletion lookup, or the invalid-command branch.
Mirrors the branch structure of `process_command_input`. -/
def runHasError (st : DesignState) (s : String) : Bool :=
  if s = "" then false
  else if pyFind ("=") s > 1 then
    match parse_parameter_command s with
    | .error _ => true
    | .ok d =>
      match itemByName st d.name with
      | some p => isErr (assign_parameter_value st p d)
      | none => false
  else if pyFind ("del ") s = 0 then
    match delParamName s with
    | none => true
    | some nm => (itemByName st nm).isNone
  else true

theorem findSubIdx_zero (sep s : List Char) :
    findSubIdx sep s = some 0 ↔ sep.isPrefixOf s = true := by
  cases s with
  | nil =>
    simp only [findSubIdx]
    split
    · simp_all
    · simp_all
  | cons c cs =>
    simp only [findSubIdx]
    split
    · simp_all
    · simp_all [Option.map_eq_some']

theorem pyFind_zero_iff (sub s : String) :
    pyFind sub s = 0 ↔ sub.data.isPrefixOf s.data = true := by
  rw [← findSubIdx_zero sub.data s.data]
  unfold pyFind
  cases h : findSubIdx sub.data s.data with
  | none => simp
  | some i => simp [Int.natCast_eq_zero]

theorem pyAlpha_not_digit (c : Char) (h : pyIsAlpha c = true) : pyIsDigit c = false := by
  simp [pyIsAlpha, pyIsDigit] at *
  omega

theorem pyAlpha_not_underscore (c : Char) (h : pyIsAlpha c = true) : (c == '_') = false := by
  rcases Bool.eq_false_or_eq_true (c == '_') with ht | hf
  · exfalso
    have hc : c = '_' := by simpa using ht
    subst hc
    simp [pyIsAlpha] at h
  · exact hf

/-- C1: parsing the exact input w=10mm yields the record with name w, value
10 and unit mm, and parsing the exact input w=10 yields name w, value 10
and the empty unit, a unitless parameter. The float value 10.0 the code
computes is exactly the rational 10 of the model. -/
theorem parse_unit_and_unitless_examples :
    parse_parameter_command ("w=10mm") = .ok ⟨("w"), 10, ("mm"), ("")⟩ ∧
    parse_parameter_command ("w=10") = .ok ⟨("w"), 10, (""), ("")⟩ := by decide

/-- C10: parsing w=10zz fails at the dedicated unit-membership raise site
(message Invalid unit type), whose kind under the spec taxonomy is
UnknownUnitError, distinct from the other three kinds. In the code every
parser failure is the single Python type ValueError; the kinds exist as
distinct raise sites and messages. -/
theorem unknown_unit_error_kind_distinct :
    parse_parameter_command ("w=10zz") = .error (.invalidUnit ("zz")) ∧
    parseKind (parse_parameter_command ("w=10zz")) = some SpecErrorKind.unknownUnitError ∧
    SpecErrorKind.unknownUnitError ≠ SpecErrorKind.formatError ∧
    SpecErrorKind.unknownUnitError ≠ SpecErrorKind.invalidConversionError ∧
    SpecErrorKind.unknownUnitError ≠ SpecErrorKind.notFoundError := by decide

/-- C2 counterexample: on the input w=10zz the condition list of the claim
holds through its unit clause (the unit part zz is non-empty and outside
the flattened set) and the parser does fail, but the failure is the
unit-membership raise site, whose kind is UnknownUnitError, not
FormatError. -/
theorem unknown_unit_clause_not_format_error :
    unitPartOf ("w=10zz") ≠ "" ∧ unitPartOf ("w=10zz") ∉ ALL_VALID_UNITS ∧
    isErr (parse_parameter_command ("w=10zz")) = true ∧
    parseKind (parse_parameter_command ("w=10zz")) ≠ some SpecErrorKind.formatError := by
  decide

/-- C2 amended: for every input string the parser fails exactly when the
claimed condition list holds (no equals sign, empty stripped name, empty
stripped value, missing or invalid numeric part, or a non-empty unit part
outside the flattened set); the failures of the first four conditions are
the FormatError kind, while the unit-membership failure is the
UnknownUnitError kind; on every other input it succeeds and produces a
parameter record. -/
theorem parse_failure_characterization (s : String) :
    (isErr (parse_parameter_command s) = true ↔ formatFailCond s ∨ unknownUnitCond s) ∧
    (parseKind (parse_parameter_command s) = some SpecErrorKind.formatError ↔
      formatFailCond s) ∧
    (parseKind (parse_parameter_command s) = some SpecErrorKind.unknownUnitError ↔
      unknownUnitCond s) := by
  by_cases h1 : '=' ∈ s.data
  case neg =>
    simp [parse_parameter_command, parseKind, isErr, formatFailCond, unknownUnitCond,
      specErrorKind, h1]
  case pos =>
    by_cases h2 : namePartOf s = "" ∨ valuePartOf s = ""
    · rcases h2 with h2 | h2 <;>
        simp [parse_parameter_command, parseKind, isErr, formatFailCond, unknownUnitCond,
          specErrorKind, h1, h2]
    · rw [not_or] at h2
      obtain ⟨h2a, h2b⟩ := h2
      by_cases h3 : numericPartOf s = []
      · simp [parse_parameter_command, parseKind, isErr, formatFailCond, unknownUnitCond,
          specErrorKind, h1, h2a, h2b, h3]
      · cases h4 : pyFloatOfNumeric (numericPartOf s) with
        | none =>
          simp [parse_parameter_command, parseKind, isErr, formatFailCond, unknownUnitCond,
            specErrorKind, h1, h2a, h2b, h3, h4]
        | some v =>
          by_cases h5 : unitPartOf s = ""
          · simp [parse_parameter_command, parseKind, isErr, formatFailCond, unknownUnitCond,
              specErrorKind, h1, h2a, h2b, h3, h4, h5]
          · by_cases h6 : unitPartOf s ∈ ALL_VALID_UNITS
            · simp [parse_parameter_command, parseKind, isErr, formatFailCond, unknownUnitCond,
                specErrorKind, h1, h2a, h2b, h3, h4, h5, h6]
            · simp [parse_parameter_command, parseKind, isErr, formatFailCond, unknownUnitCond,
                specErrorKind, h1, h2a, h2b, h3, h4, h5, h6]

theorem parse_failure_characterization_witness :
    isErr (parse_parameter_command ("w=xyz")) = true := by
  have h := parse_failure_characterization ("w=xyz")
  exact h.1.mpr (Or.inl (by decide))

/-- C3: a unit-bearing parameter is never converted to unitless. For every
store, every parameter whose unit is non-empty and every parsed record
whose unit is empty, the mutator rejects the assignment at its
unit-to-unitless guard (the InvalidConversionError of the spec taxonomy),
and the modification handler catches that ValueError, shows the validation
message box and returns the store unchanged, so the parameter keeps its
non-empty unit. -/
theorem unit_to_unitless_always_fails (st : DesignState) (p : UserParameter)
    (d : ParameterData) (h1 : p.unit ≠ "") (h2 : d.unit_type = "") :
    assign_parameter_value st p d = .error (.invalidConversion p.unit) ∧
    ∀ s, parse_parameter_command s = .ok d → itemByName st d.name = some p →
      handle_parameter_modification st s =
        (st, [.paramValidationError s (.assignFail (.invalidConversion p.unit))]) := by
  have hass : assign_parameter_value st p d = .error (.invalidConversion p.unit) := by
    unfold assign_parameter_value
    rw [if_pos ⟨h1, h2⟩]
  refine ⟨hass, ?_⟩
  intro s hp hf
  simp only [handle_parameter_modification, hp, hf, hass]

theorem unit_to_unitless_always_fails_witness :
    assign_parameter_value ⟨[⟨0, ("w"), ("mm"), .withUnit 10 ("mm")⟩], 1⟩
      ⟨0, ("w"), ("mm"), .withUnit 10 ("mm")⟩ ⟨("w"), 10, (""), ("")⟩ =
      .error (.invalidConversion ("mm")) ∧
    handle_parameter_modification ⟨[⟨0, ("w"), ("mm"), .withUnit 10 ("mm")⟩], 1⟩ ("w=10") =
      (⟨[⟨0, ("w"), ("mm"), .withUnit 10 ("mm")⟩], 1⟩,
        [.paramValidationError ("w=10") (.assignFail (.invalidConversion ("mm")))]) := by
  have h := unit_to_unitless_always_fails ⟨[⟨0, ("w"), ("mm"), .withUnit 10 ("mm")⟩], 1⟩
    ⟨0, ("w"), ("mm"), .withUnit 10 ("mm")⟩ ⟨("w"), 10, (""), ("")⟩ (by decide) (by decide)
  exact ⟨h.1, h.2 ("w=10") (by decide) (by decide)⟩

/-- C4: the case analysis of the modification path. With a successfully
parsed record: when no parameter of that name exists, a new one is created
from the expression built of the value and unit of the record; when one
exists with the same unit, only that parameter has its expression
reassigned in place (same object identity, every other parameter
untouched); when one exists unitless and the record carries a unit, the
parameter is deleted and recreated under the same name with the new unit;
when one exists with a unit and the record is unitless, the run fails with
the invalid-conversion error. -/
theorem mutator_case_analysis (st : DesignState) (s : String) (d : ParameterData)
    (hp : parse_parameter_command s = .ok d) :
    (itemByName st d.name = none →
      handle_parameter_modification st s =
        (addParameter st d.name d.unit_type (.withUnit d.value d.unit_type), [])) ∧
    (∀ p, itemByName st d.name = some p → p.unit = d.unit_type →
      handle_parameter_modification st s =
        ({ st with params := st.params.map (fun q =>
            if q.pid = p.pid then { q with expression := mkAssignExpr d } else q) }, [])) ∧
    (∀ p, itemByName st d.name = some p → p.unit = "" → d.unit_type ≠ "" →
      handle_parameter_modification st s =
        (addParameter (deleteParameter st p.pid) p.name d.unit_type
          (.withUnit d.value d.unit_type), [])) ∧
    (∀ p, itemByName st d.name = some p → p.unit ≠ "" → d.unit_type = "" →
      handle_parameter_modification st s =
        (st, [.paramValidationError s (.assignFail (.invalidConversion p.unit))])) := by
  refine ⟨?_, ?_, ?_, ?_⟩
  · intro hnone
    simp only [handle_parameter_modification, hp, hnone]
  · intro p hf hu
    rcases eq_or_ne d.unit_type "" with hdu | hdu
    · simp [handle_parameter_modification, hp, hf, assign_parameter_value, hu, hdu]
    · simp [handle_parameter_modification, hp, hf, assign_parameter_value, hu, hdu]
  · intro p hf hpu hdu
    simp [handle_parameter_modification, hp, hf, assign_parameter_value, mkAssignExpr,
      hpu, hdu]
  · intro p hf hpu hdu
    simp [handle_parameter_modification, hp, hf, assign_parameter_value, hpu, hdu]

theorem mutator_case_analysis_witness :
    parse_parameter_command ("nw=10mm") = .ok ⟨("nw"), 10, ("mm"), ("")⟩ ∧
    handle_parameter_modification ⟨[], 0⟩ ("nw=10mm") =
      (addParameter ⟨[], 0⟩ ("nw") ("mm") (.withUnit 10 ("mm")), []) := by
  refine ⟨by decide, ?_⟩
  exact (mutator_case_analysis ⟨[], 0⟩ ("nw=10mm") ⟨("nw"), 10, ("mm"), ("")⟩
    (by decide)).1 (by decide)

/-- C5 counterexample: on a concrete store holding the parameter w with
unit mm (object identity 0) and the parsed record with value 5 and the
different non-empty unit deg, the mutator performs an in-place expression
assignment: the result keeps object identity 0, the stored unit mm and the
next fresh identity 1, and differs from the state a delete-and-recreate
would produce. -/
theorem unit_change_updates_in_place_cx :
    assign_parameter_value ⟨[⟨0, ("w"), ("mm"), .withUnit 10 ("mm")⟩], 1⟩
      ⟨0, ("w"), ("mm"), .withUnit 10 ("mm")⟩ ⟨("w"), 5, ("deg"), ("")⟩ =
      .ok ⟨[⟨0, ("w"), ("mm"), .withUnit 5 ("deg")⟩], 1⟩ ∧
    assign_parameter_value ⟨[⟨0, ("w"), ("mm"), .withUnit 10 ("mm")⟩], 1⟩
      ⟨0, ("w"), ("mm"), .withUnit 10 ("mm")⟩ ⟨("w"), 5, ("deg"), ("")⟩ ≠
      .ok (addParameter
        (deleteParameter ⟨[⟨0, ("w"), ("mm"), .withUnit 10 ("mm")⟩], 1⟩ 0)
        ("w") ("deg") (.withUnit 5 ("deg"))) := by decide

/-- C5 amended: for every edit of an existing parameter whose unit is
non-empty, with a record whose unit is also non-empty (equal or
different), the mutator performs an in-place expression assignment on the
same parameter object; delete-and-recreate happens only on the
unitless-to-unit transition. -/
theorem unit_change_in_place_update (st : DesignState) (p : UserParameter)
    (d : ParameterData) (h1 : p.unit ≠ "") (h2 : d.unit_type ≠ "") :
    assign_parameter_value st p d =
      .ok { st with params := st.params.map (fun q =>
        if q.pid = p.pid then { q with expression := mkAssignExpr d } else q) } := by
  unfold assign_parameter_value
  rw [if_neg (fun hc => h2 hc.2), if_neg (fun hc => h1 hc.1)]

theorem unit_change_in_place_update_witness :
    assign_parameter_value ⟨[⟨0, ("w"), ("mm"), .withUnit 10 ("mm")⟩], 1⟩
      ⟨0, ("w"), ("mm"), .withUnit 10 ("mm")⟩ ⟨("w"), 7, ("deg"), ("")⟩ =
      .ok ⟨[⟨0, ("w"), ("mm"), .withUnit 7 ("deg")⟩], 1⟩ := by
  have h := unit_change_in_place_update ⟨[⟨0, ("w"), ("mm"), .withUnit 10 ("mm")⟩], 1⟩
    ⟨0, ("w"), ("mm"), .withUnit 10 ("mm")⟩ ⟨("w"), 7, ("deg"), ("")⟩ (by decide) (by decide)
  rw [h]
  decide

/-- C6: the dispatcher guard requires the first equals sign at index at
least 2. For every store and every command string whose first equals sign
sits at index 0 or 1 (a parameter name of at most one character) and which
does not start with the deletion keyword, the dispatcher never reaches the
modification handler: it returns the store unchanged with only the
unable-to-evaluate message box. The parser itself accepts such strings, as
the conjunct about w=10mm records. -/
theorem short_name_command_not_dispatched (st : DesignState) (s : String)
    (h1 : pyFind ("=") s = 0 ∨ pyFind ("=") s = 1)
    (h2 : ¬ (("del ").data.isPrefixOf s.data = true)) :
    process_command_input st s = (st, [.unableToEvaluate s]) ∧
    isErr (parse_parameter_command ("w=10mm")) = false := by
  refine ⟨?_, by decide⟩
  have hne : s ≠ "" := by
    intro he
    subst he
    rcases h1 with h | h <;> exact absurd h (by decide)
  have hgt : ¬ pyFind ("=") s > 1 := by
    rcases h1 with h | h <;> rw [h] <;> decide
  have hdel : ¬ pyFind ("del ") s = 0 := fun hc => h2 ((pyFind_zero_iff _ _).mp hc)
  simp [process_command_input, hne, hgt, hdel]

theorem short_name_command_not_dispatched_witness :
    process_command_input ⟨[], 0⟩ ("w=10mm") =
      (⟨[], 0⟩, [.unableToEvaluate ("w=10mm")]) :=
  (short_name_command_not_dispatched ⟨[], 0⟩ ("w=10mm") (Or.inr (by decide))
    (by decide)).1

/-- C8: deletion of a name not present in the store. For every store and
every deletion command whose extracted target name has no parameter, the
deletion handler shows the parameter-not-found message box (the
NotFoundError of the spec taxonomy) and returns the store unchanged. -/
theorem delete_missing_name_not_found (st : DesignState) (s : String) (nm : String)
    (h1 : delParamName s = some nm) (h2 : itemByName st nm = none) :
    handle_parameter_deletion st s = (st, [.parameterNotFound nm]) := by
  simp only [handle_parameter_deletion, h1, h2]

theorem delete_missing_name_not_found_witness :
    handle_parameter_deletion ⟨[], 0⟩ ("del foo") =
      (⟨[], 0⟩, [.parameterNotFound ("foo")]) :=
  delete_missing_name_not_found ⟨[], 0⟩ ("del foo") ("foo") (by decide) (by decide)

/-- C9: the dispatcher is a total function of the store and the input (in
the code every raise site of the handlers sits under a try-except whose
handler calls messageBox, so no exception propagates to the caller), a
message box is shown exactly when a run hits an internal error condition,
and an erroring run leaves the store unchanged. The host accessor
get_app_objects and messageBox itself are assumed not to fail, matching
the external-collaborator scoping of the spec. -/
theorem errors_surfaced_and_store_kept (st : DesignState) (s : String) :
    ((process_command_input st s).2 ≠ [] ↔ runHasError st s = true) ∧
    (runHasError st s = true → (process_command_input st s).1 = st) := by
  by_cases hne : s = ""
  · simp [process_command_input, runHasError, hne]
  · by_cases heq : pyFind ("=") s > 1
    · cases hp : parse_parameter_command s with
      | error e =>
        simp [process_command_input, runHasError, handle_parameter_modification,
          hne, heq, hp]
      | ok d =>
        cases hf : itemByName st d.name with
        | some p =>
          cases ha : assign_parameter_value st p d with
          | error e =>
            simp [process_command_input, runHasError, handle_parameter_modification,
              hne, heq, hp, hf, ha, isErr]
          | ok st1 =>
            simp [process_command_input, runHasError, handle_parameter_modification,
              hne, heq, hp, hf, ha, isErr]
        | none =>
          simp [process_command_input, runHasError, handle_parameter_modification,
            hne, heq, hp, hf]
    · by_cases hdel : pyFind ("del ") s = 0
      · cases hd : delParamName s with
        | none =>
          simp [process_command_input, runHasError, handle_parameter_deletion,
            hne, heq, hdel, hd]
        | some nm =>
          cases hi : itemByName st nm with
          | some p =>
            simp [process_command_input, runHasError, handle_parameter_deletion,
              hne, heq, hdel, hd, hi]
          | none =>
            simp [process_command_input, runHasError, handle_parameter_deletion,
              hne, heq, hdel, hd, hi]
      · simp [process_command_input, runHasError, hne, heq, hdel]

theorem errors_surfaced_and_store_kept_witness :
    (process_command_input ⟨[], 0⟩ ("ww=xyz")).2 ≠ [] ∧
    (process_command_input ⟨[], 0⟩ ("ww=xyz")).1 = ⟨[], 0⟩ := by
  have h := errors_surfaced_and_store_kept ⟨[], 0⟩ ("ww=xyz")
  exact ⟨h.1.mpr (by decide), h.2 (by decide)⟩

/-- C7: the parser partitions the value substring into digit, dot and
minus characters (numeric part) and alphabetic characters (unit part),
silently discarding everything else, so every unit a produced record
carries is purely alphabetic and in particular holds no digit and no
underscore; consequently the taxonomy units inH2O, ftH2O, mH2O,
circular_mil and fl_oz, each of which holds a digit or an underscore, can
never come out of the parser, and w=10inH2O fails even though inH2O is in
the flattened set. -/
theorem unit_part_alphabetic_only :
    (∀ s d, parse_parameter_command s = .ok d →
      d.unit_type.data.all (fun c => pyIsAlpha c && !(pyIsDigit c) && !(c == '_')) = true) ∧
    ((["inH2O", "ftH2O", "mH2O", "circular_mil", "fl_oz"] : List String).all
      (fun u => decide (u ∈ ALL_VALID_UNITS) && !(u.data.all (fun c => pyIsAlpha c))) = true) ∧
    isErr (parse_parameter_command ("w=10inH2O")) = true := by
  refine ⟨?_, by decide, by decide⟩
  intro s d hp
  unfold parse_parameter_command at hp
  split at hp
  · simp at hp
  · split at hp
    · simp at hp
    · split at hp
      · simp at hp
      · split at hp
        · simp at hp
        · split at hp
          · cases hp
            simp
          · split at hp
            · simp at hp
            · cases hp
              simp only [unitPartOf, List.all_eq_true]
              intro c hc
              have hca : pyIsAlpha c = true := by
                have := List.mem_filter.mp hc
                simpa using this.2
              simp [hca, pyAlpha_not_digit c hca, pyAlpha_not_underscore c hca]

theorem unit_part_alphabetic_only_witness :
    (ParameterData.mk ("w") 10 ("mm") ("")).unit_type.data.all
      (fun c => pyIsAlpha c && !(pyIsDigit c) && !(c == '_')) = true :=
  unit_part_alphabetic_only.1 ("w=10mm") ⟨("w"), 10, ("mm"), ("")⟩ (by decide)
